import Mathlib

/-!
Verification of the attendance-automation orchestrator: its execution lock,
scheduler, time-window evaluator, retry policy, queue processor, provider
result handling, and file-backed stores.

Definitions marked `Modelled from the spec:` embed components whose source
file is not part of the repository snapshot (`execution-lock.util.ts` and
`attendance.automation.ts`); all other definitions are shallow embeddings of
the TypeScript source files (`scheduler.ts`, `constants.ts`,
`provider.config.ts`, `attendance-log.util.ts`, `file.util.ts`).
-/

/-- Holder tag recorded with a lock acquisition: `'cron'` for a scheduled
tick, `'manual'` for an API-invoked run. -/
inductive LockSource where
  | cron
  | manual
deriving DecidableEq, Repr

/-- Lock state: `none` is free, `some s` is held with holder tag `s`. -/
abbrev LockState := Option LockSource

/-- Modelled from the spec: `acquireLock` of the missing
`execution-lock.util.ts` (§4.1 ExecutionLock). Returns `true` and
transitions to held iff currently free; returns `false` without side
effects if already held. Result is `(returnValue, newState)`. -/
def acquireLock (source : LockSource) (st : LockState) : Bool × LockState :=
  match st with
  | none => (true, some source)
  | some h => (false, some h)

/-- Modelled from the spec: `releaseLock` of the missing
`execution-lock.util.ts` (§4.1). Idempotent; safe to call when already
free. -/
def releaseLock (_st : LockState) : LockState :=
  none

/-- Read-only snapshot of the lock, as consumed by `getSchedulerStatus`. -/
structure LockStatus where
  locked : Bool
  source : Option LockSource
deriving DecidableEq, Repr

/-- Modelled from the spec: `getLockStatus` of the missing
`execution-lock.util.ts` (§4.1 `status()` query). -/
def getLockStatus (st : LockState) : LockStatus :=
  { locked := st.isSome, source := st }

/-- The `AUTOMATION_CONFIG` record of `src/v2/config/constants.ts`.
The `parseInt(process.env..., 10) || default` fields are embedded at their
default values (no environment overrides). -/
structure AutomationConfig where
  CRON_SCHEDULE : String
  TIME_WINDOW_MINUTES : Nat
  EXTENDED_RETRY_HOURS : Nat
  EMERGENCY_LOGOUT_START : String
  EMERGENCY_LOGOUT_END : String
  MAX_RETRY_ATTEMPTS : Nat
  RETRY_DELAY_MS : Nat
  ENABLE_AUTOMATION : Bool
deriving DecidableEq, Repr

/-- Default configuration values from `constants.ts` (environment unset;
`ENABLE_AUTOMATION` defaults to `false` because `undefined === 'true'` is
false). -/
def AUTOMATION_CONFIG : AutomationConfig where
  CRON_SCHEDULE := "* * * * *"
  TIME_WINDOW_MINUTES := 6
  EXTENDED_RETRY_HOURS := 2
  EMERGENCY_LOGOUT_START := "22:00"
  EMERGENCY_LOGOUT_END := "23:59"
  MAX_RETRY_ATTEMPTS := 3
  RETRY_DELAY_MS := 5000
  ENABLE_AUTOMATION := false

/-- State owned by `scheduler.ts`: whether a cron task is installed
(`scheduledTask !== null`) together with the execution lock's state. -/
structure SchedulerState where
  scheduledTask : Bool
  lock : LockState
deriving DecidableEq, Repr

/-- Environment facts read by `startScheduler`: the
`ENABLE_AUTOMATION` flag and whether `GITHUB_ACTIONS`/`CLOUD_SCHEDULER`
marks a cloud-scheduler environment. -/
structure SchedulerEnv where
  enableAutomation : Bool
  isCloudScheduler : Bool
deriving DecidableEq, Repr

/-- The cron callback installed by `startScheduler`
(`scheduler.ts` lines 62–81): try to acquire the lock with tag `'cron'`;
on failure return leaving the lock as found; on success run
`processAttendanceQueue` inside `try`/`finally` so the lock is released
whether the processor returns or throws (`processorThrows`). -/
def cronTick (processorThrows : Bool) (lock : LockState) : LockState :=
  match acquireLock LockSource.cron lock with
  | (false, st) => st
  | (true, st) =>
      let _ := processorThrows
      releaseLock st

/-- `runAttendanceAutomationOnce` (`scheduler.ts` lines 93–114): the whole
body, including the acquire attempt, sits inside `try`/`catch`/`finally`,
so `releaseLock` runs on every path — even when the acquire failed. -/
def runAttendanceAutomationOnce (processorThrows : Bool) (lock : LockState) : LockState :=
  let (_acquired, st) := acquireLock LockSource.cron lock
  let _ := processorThrows
  releaseLock st

/-- `startScheduler` (`scheduler.ts` lines 26–84): return unchanged when
automation is disabled; in a cloud-scheduler environment run the one-shot
path; return unchanged when a task is already installed; otherwise install
the cron task. -/
def startScheduler (env : SchedulerEnv) (processorThrows : Bool)
    (st : SchedulerState) : SchedulerState :=
  if !env.enableAutomation then st
  else if env.isCloudScheduler then
    { st with lock := runAttendanceAutomationOnce processorThrows st.lock }
  else if st.scheduledTask then st
  else { st with scheduledTask := true }

/-- `stopScheduler` (`scheduler.ts` lines 123–135): return unchanged when
no task is installed; otherwise stop and clear the task. -/
def stopScheduler (st : SchedulerState) : SchedulerState :=
  if !st.scheduledTask then st
  else { st with scheduledTask := false }

/-- Status record returned by `getSchedulerStatus`. -/
structure SchedulerStatus where
  running : Bool
  executing : Bool
  schedule : String
deriving DecidableEq, Repr

/-- `getSchedulerStatus` (`scheduler.ts` lines 142–149): `running` is
whether the cron task is installed, `executing` is
`lockStatus.locked && lockStatus.source === 'cron'`. -/
def getSchedulerStatus (st : SchedulerState) : SchedulerStatus :=
  let lockStatus := getLockStatus st.lock
  { running := st.scheduledTask
    executing := lockStatus.locked && decide (lockStatus.source = some LockSource.cron)
    schedule := AUTOMATION_CONFIG.CRON_SCHEDULE }

/-- The two per-user actions automated against the portal. -/
inductive ActionKind where
  | login
  | logout
deriving DecidableEq, Repr

/-- Eligibility decision produced by the TimeWindowEvaluator (spec §4.2). -/
inductive Decision where
  | skipNotDue
  | actPrimaryWindow
  | actExtendedRetryWindow
  | actEmergencyWindow
  | skipExpired
deriving DecidableEq, Repr

/-- Numeric value of a decimal digit character. -/
def digitVal (c : Char) : Nat :=
  c.toNat - '0'.toNat

/-- Modelled from the spec: parsing of the `HH:MM` emergency-window strings
of `constants.ts` into minutes-of-day, as done by the missing
`attendance.automation.ts`. Non-`HH:MM` input maps to 0. -/
def hhmmToMinutes (s : String) : Nat :=
  match s.data with
  | [h1, h2, _, m1, m2] =>
      (digitVal h1 * 10 + digitVal h2) * 60 + (digitVal m1 * 10 + digitVal m2)
  | _ => 0

/-- Membership in the primary window `T ± W` minutes, boundaries inclusive
(Nat subtraction clamps the lower bound at midnight). -/
def inPrimaryWindow (cfg : AutomationConfig) (T nowMin : Nat) : Bool :=
  decide (T - cfg.TIME_WINDOW_MINUTES ≤ nowMin) &&
    decide (nowMin ≤ T + cfg.TIME_WINDOW_MINUTES)

/-- Membership in the extended retry window: strictly after `T + W`, up to
`T + H` hours inclusive. -/
def inExtendedWindow (cfg : AutomationConfig) (T nowMin : Nat) : Bool :=
  decide (T + cfg.TIME_WINDOW_MINUTES < nowMin) &&
    decide (nowMin ≤ T + 60 * cfg.EXTENDED_RETRY_HOURS)

/-- Membership in the emergency logout window `[E_start, E_end]`,
boundaries inclusive. -/
def inEmergencyWindow (cfg : AutomationConfig) (nowMin : Nat) : Bool :=
  decide (hhmmToMinutes cfg.EMERGENCY_LOGOUT_START ≤ nowMin) &&
    decide (nowMin ≤ hhmmToMinutes cfg.EMERGENCY_LOGOUT_END)

/-- Modelled from the spec: the TimeWindowEvaluator of the missing
`attendance.automation.ts` (§4.2). Checks are evaluated in order, first
match wins: weekday exclusion, primary window, extended retry window,
emergency window (logout only), otherwise expired. `T` and `nowMin` are
minutes-of-day, `nowWeekday` is 0–6. -/
def evaluateTimeWindow (cfg : AutomationConfig) (action : ActionKind)
    (weekdays : List Nat) (T : Nat) (nowWeekday nowMin : Nat) : Decision :=
  if !(weekdays.contains nowWeekday) then Decision.skipNotDue
  else if inPrimaryWindow cfg T nowMin then Decision.actPrimaryWindow
  else if inExtendedWindow cfg T nowMin then Decision.actExtendedRetryWindow
  else if decide (action = ActionKind.logout) && inEmergencyWindow cfg nowMin then
    Decision.actEmergencyWindow
  else Decision.skipExpired

/-- Modelled from the spec: the RetryPolicy of §4.3 (implemented in the
missing `attendance.automation.ts`). `retryTrace op start n` is the list of
outcomes observed when running `op` up to `n` times starting at attempt
index `start`, stopping early on the first success. The inter-attempt
delay `D` only sleeps and does not affect outcomes. -/
def retryTrace (op : Nat → Except ε α) (start : Nat) : Nat → List (Except ε α)
  | 0 => []
  | n + 1 =>
    match op start with
    | Except.ok a => [Except.ok a]
    | Except.error e => Except.error e :: retryTrace op (start + 1) n

/-- Modelled from the spec: `run(operation)` of the RetryPolicy (§4.3).
The returned outcome is the last one observed: the first success, or the
last failure when all `n` attempts are exhausted (`none` for `n = 0`). -/
def retryRun (op : Nat → Except ε α) (n : Nat) : Option (Except ε α) :=
  (retryTrace op 0 n).getLast?

/-- Parsed punch data from the attendance dashboard
(`provider.config.ts`, interface `PunchData`). -/
structure PunchData where
  inTime : String
  outTime : String
deriving DecidableEq, Repr

/-- JavaScript `String.prototype.trim`, used by `isPunchedIn`/`isPunchedOut`. -/
def jsTrim (s : String) : String :=
  String.mk (((s.data.dropWhile Char.isWhitespace).reverse.dropWhile
    Char.isWhitespace).reverse)

/-- `AkriviaProvider.isPunchedIn`: the in-time cell is a real punch time
rather than the em-dash placeholder. -/
def isPunchedIn (inTime : String) : Bool :=
  decide (inTime ≠ "—") && decide (jsTrim inTime ≠ "—") &&
    decide (inTime.length > 0) && !(inTime.data.contains '—')

/-- `AkriviaProvider.isPunchedOut`: the out-time cell is a real punch time
rather than the em-dash placeholder. -/
def isPunchedOut (outTime : String) : Bool :=
  decide (outTime ≠ "—") && decide (jsTrim outTime ≠ "—") &&
    decide (outTime.length > 0) && !(outTime.data.contains '—')

/-- Portal observations available to one iteration of the verification
loop in `AkriviaProvider.verifyPunchSuccess`: whether the punch card
element was found within the inner wait, whether `parseTodaysPunches`
threw (with its message), and the parsed punch data otherwise. -/
structure VerifyAttempt where
  elementFound : Bool
  parseThrows : Option String
  punchData : PunchData
deriving Repr

/-- Whether one verification attempt observes the target state updated
(`isPunchedIn` of the in time for login, `isPunchedOut` of the out time
for logout). -/
def attemptVerified (checkType : ActionKind) (a : VerifyAttempt) : Bool :=
  match checkType with
  | ActionKind.login => isPunchedIn a.punchData.inTime
  | ActionKind.logout => isPunchedOut a.punchData.outTime

/-- The `for (attempt = 1; attempt <= maxRetries; ...)` loop of
`AkriviaProvider.verifyPunchSuccess` (`provider.config.ts` lines 371–407):
element not found ⟹ continue; parse throw propagates; verified ⟹ return
`true`; otherwise continue; all attempts exhausted ⟹ `false`. Returns the
outcome together with the number of loop iterations executed. -/
def verifyLoop (checkType : ActionKind) (att : Nat → VerifyAttempt) (i : Nat) :
    Nat → Except String Bool × Nat
  | 0 => (Except.ok false, 0)
  | n + 1 =>
    let a := att i
    if !a.elementFound then
      let r := verifyLoop checkType att (i + 1) n
      (r.1, r.2 + 1)
    else
      match a.parseThrows with
      | some e => (Except.error e, 1)
      | none =>
        if attemptVerified checkType a then (Except.ok true, 1)
        else
          let r := verifyLoop checkType att (i + 1) n
          (r.1, r.2 + 1)

/-- `maxRetries` of `AkriviaProvider.verifyPunchSuccess`. -/
def maxRetries : Nat := 6

/-- `AkriviaProvider.verifyPunchSuccess` (`provider.config.ts` lines
362–410): after the page refresh, poll the punch card up to `maxRetries`
times (attempt indices 1 to 6), 5000 ms apart. -/
def verifyPunchSuccess (checkType : ActionKind) (att : Nat → VerifyAttempt) :
    Except String Bool × Nat :=
  verifyLoop checkType att 1 maxRetries

/-- Result shape of `AkriviaProvider.login` (`LoginResult`); the
`timestamp` field carries no information relevant here and is omitted. -/
structure LoginResult where
  success : Bool
  message : String
  actualInTime : Option String := none
deriving DecidableEq, Repr

/-- Result shape of `AkriviaProvider.logout` (`LogoutResult`). -/
structure LogoutResult where
  success : Bool
  message : String
  actualOutTime : Option String := none
deriving DecidableEq, Repr

/-- The external-world behavior a single `login`/`logout` call runs
against: which steps throw (with their messages), the punch data parsed
from the dashboard, the per-attempt verification observations, and the
re-parse after successful verification. -/
structure ProviderEnv where
  authThrows : Option String
  parseThrows : Option String
  punchData : PunchData
  actionThrows : Option String
  verifyAttempts : Nat → VerifyAttempt
  reparseThrows : Option String
  reparseData : PunchData

namespace AkriviaProvider

/-- `AkriviaProvider.login` (`provider.config.ts` lines 429–496):
authenticate and navigate, parse punches, short-circuit with success when
already punched in, otherwise check in and verify; every thrown error is
caught at line 485 and converted to a `success: false` result carrying the
error's message. -/
def login (env : ProviderEnv) : LoginResult :=
  match env.authThrows with
  | some e => { success := false, message := e }
  | none =>
    match env.parseThrows with
    | some e => { success := false, message := e }
    | none =>
      if isPunchedIn env.punchData.inTime then
        { success := true
          message := "Already logged in today at " ++ env.punchData.inTime
          actualInTime := some env.punchData.inTime }
      else
        match env.actionThrows with
        | some e => { success := false, message := e }
        | none =>
          match verifyPunchSuccess ActionKind.login env.verifyAttempts with
          | (Except.error e, _) => { success := false, message := e }
          | (Except.ok true, _) =>
            match env.reparseThrows with
            | some e => { success := false, message := e }
            | none =>
              { success := true
                message := "Login successful - attendance marked"
                actualInTime := some env.reparseData.inTime }
          | (Except.ok false, _) =>
            { success := false
              message := "Login action completed but verification failed - In time not updated" }

/-- `AkriviaProvider.logout` (`provider.config.ts` lines 512–579):
symmetric to `login`, keyed on the out time. -/
def logout (env : ProviderEnv) : LogoutResult :=
  match env.authThrows with
  | some e => { success := false, message := e }
  | none =>
    match env.parseThrows with
    | some e => { success := false, message := e }
    | none =>
      if isPunchedOut env.punchData.outTime then
        { success := true
          message := "Already logged out today at " ++ env.punchData.outTime
          actualOutTime := some env.punchData.outTime }
      else
        match env.actionThrows with
        | some e => { success := false, message := e }
        | none =>
          match verifyPunchSuccess ActionKind.logout env.verifyAttempts with
          | (Except.error e, _) => { success := false, message := e }
          | (Except.ok true, _) =>
            match env.reparseThrows with
            | some e => { success := false, message := e }
            | none =>
              { success := true
                message := "Logout successful - attendance marked"
                actualOutTime := some env.reparseData.outTime }
          | (Except.ok false, _) =>
            { success := false
              message := "Logout action completed but verification failed - Out time not updated" }

end AkriviaProvider

/-- AttendanceLog entry shape (spec §3; `attendance.model.ts` is not in
the snapshot). The execution timestamp carries no information relevant to
the claims and is omitted. -/
structure AttendanceLog where
  userId : String
  action : ActionKind
  success : Bool
  message : String
deriving DecidableEq, Repr

/-- Outcome of one provider call as seen by the queue processor: the call
either threw with a message or returned a result. -/
inductive CallOutcome where
  | threw (msg : String)
  | returned (success : Bool) (message : String)
deriving DecidableEq, Repr

/-- One user's situation within a cycle: the eligibility decision the
evaluator produced for the action under consideration, and how the
provider call for that user behaves if dispatched. -/
structure CycleUser where
  id : String
  decision : Decision
  call : CallOutcome
deriving DecidableEq, Repr

/-- Whether a decision dispatches the provider (`act-*`) rather than
skipping (`skip-*`). -/
def Decision.isAct : Decision → Bool
  | Decision.actPrimaryWindow => true
  | Decision.actExtendedRetryWindow => true
  | Decision.actEmergencyWindow => true
  | _ => false

/-- Modelled from the spec: the per-user step of `processAttendanceQueue`
(§4.4, missing `attendance.automation.ts`): a `skip-*` decision records
nothing; an `act-*` decision records exactly one log entry — the provider
result's outcome, or a `failure` entry with the error's message when the
call threw, caught at the per-user boundary. -/
def processUser (action : ActionKind) (u : CycleUser) : List AttendanceLog :=
  if u.decision.isAct then
    match u.call with
    | CallOutcome.threw m =>
      [{ userId := u.id, action := action, success := false, message := m }]
    | CallOutcome.returned s m =>
      [{ userId := u.id, action := action, success := s, message := m }]
  else []

/-- Modelled from the spec: `processAttendanceQueue` (§4.4, missing
`attendance.automation.ts`): process every user of the queue in sequence,
each inside its own per-user error boundary, appending the produced log
entries; one user's failure never aborts the rest of the cycle. -/
def processAttendanceQueue (action : ActionKind) :
    List CycleUser → List AttendanceLog
  | [] => []
  | u :: rest => processUser action u ++ processAttendanceQueue action rest

/-- Which filesystem steps of an atomic write fail in a given run. -/
structure WriteFailures where
  mkdirFails : Bool
  writeFileFails : Bool
  renameFails : Bool
deriving DecidableEq, Repr

/-- A destination file and its `.tmp` sibling; `temp = none` means the
temporary file does not exist. Contents are the deserialized payload. -/
structure FsFile (α : Type) where
  dest : α
  temp : Option α
deriving DecidableEq, Repr

/-- `MAX_LOGS` of `attendance-log.util.ts` line 16. -/
def MAX_LOGS : Nat := 1000

/-- `writeLogsToFile` (`attendance-log.util.ts` lines 87–111): mkdir,
write the payload to the `.tmp` path, rename it over the destination; on
any failure the `catch` block unlinks the temporary file (ignoring unlink
errors) and rethrows, leaving the destination unchanged. Returns the
resulting file state and the thrown error, if any. -/
def writeLogsToFile (logs : List AttendanceLog) (f : WriteFailures)
    (st : FsFile (List AttendanceLog)) : FsFile (List AttendanceLog) × Option String :=
  if f.mkdirFails then
    ({ st with temp := none }, some "Failed to write attendance logs: mkdir failed")
  else if f.writeFileFails then
    ({ st with temp := none }, some "Failed to write attendance logs: write failed")
  else if f.renameFails then
    ({ st with temp := none }, some "Failed to write attendance logs: rename failed")
  else ({ dest := logs, temp := none }, none)

/-- User record (`user.model.ts` is not in the snapshot); only identity
matters for the storage claims. -/
structure User where
  id : String
deriving DecidableEq, Repr

/-- `writeUsersToFile` (`file.util.ts` lines 69–87): mkdir, write the
payload to the `.tmp` path, rename it over the destination; on failure it
rethrows with a `Failed to write users` message but — unlike
`writeLogsToFile` — has no cleanup step, so a temporary file created
before the failing rename is left behind. -/
def writeUsersToFile (users : List User) (f : WriteFailures)
    (st : FsFile (List User)) : FsFile (List User) × Option String :=
  if f.mkdirFails then
    (st, some "Failed to write users: mkdir failed")
  else if f.writeFileFails then
    (st, some "Failed to write users: write failed")
  else if f.renameFails then
    ({ st with temp := some users }, some "Failed to write users: rename failed")
  else ({ dest := users, temp := none }, none)

/-- `appendLog` (`attendance-log.util.ts` lines 121–141): read the stored
logs, push the new entry, drop the oldest `length - MAX_LOGS` entries when
the ceiling is exceeded, and write the array back atomically; errors are
rewrapped with a `Failed to append log` message. -/
def appendLog (log : AttendanceLog) (f : WriteFailures)
    (st : FsFile (List AttendanceLog)) : FsFile (List AttendanceLog) × Option String :=
  let logs := st.dest ++ [log]
  let trimmed :=
    if logs.length > MAX_LOGS then logs.drop (logs.length - MAX_LOGS) else logs
  match writeLogsToFile trimmed f st with
  | (st2, none) => (st2, none)
  | (st2, some e) => (st2, some ("Failed to append log: " ++ e))

/-- An operation that fails on its first two attempts (indices 0 and 1)
and succeeds on the third, used to check the documented RetryPolicy
example `N = 3, D = 0`. -/
def failsTwiceThenSucceeds : Nat → Except String Nat :=
  fun i => if i < 2 then Except.error "transient failure" else Except.ok 42

/-- C1: every scheduler-initiated cycle — a recurring cron tick or a
one-shot cloud-scheduler run — that successfully acquires the execution
lock leaves the lock free afterwards, whether `processAttendanceQueue`
returns normally or throws (`processorThrows` covers both). -/
theorem C1_scheduler_releases_lock (processorThrows : Bool) (lock : LockState) :
    ((acquireLock LockSource.cron lock).1 = true →
      cronTick processorThrows lock = none) ∧
    ((acquireLock LockSource.cron lock).1 = true →
      runAttendanceAutomationOnce processorThrows lock = none) := by
  cases lock <;>
    simp [acquireLock, cronTick, runAttendanceAutomationOnce, releaseLock]

/-- Witness for C1: a cron tick on a free lock (processor throwing) and a
one-shot run on a free lock (processor succeeding) both end with the lock
free. -/
theorem C1_witness :
    cronTick true none = none ∧ runAttendanceAutomationOnce false none = none :=
  ⟨(C1_scheduler_releases_lock true none).1 rfl,
   (C1_scheduler_releases_lock false none).2 rfl⟩

/-- C3: `acquireLock` returns `true` and transitions to held iff the lock
is currently free, returns `false` leaving the state untouched when held,
and two acquires without an intervening release yield `true` then `false`
regardless of the caller tags. -/
theorem C3_acquire_exclusive (s1 s2 : LockSource) (st : LockState) :
    ((acquireLock s1 st).1 = true ↔ st = none) ∧
    (st = none → (acquireLock s1 st).2 = some s1) ∧
    ((acquireLock s1 st).1 = false → (acquireLock s1 st).2 = st) ∧
    ((acquireLock s1 none).1 = true ∧
      (acquireLock s2 (acquireLock s1 none).2).1 = false) := by
  cases st <;> simp [acquireLock]

/-- Witness for C3: acquiring a free lock succeeds and records the holder;
a second acquire with a different tag fails and leaves the holder. -/
theorem C3_witness :
    (acquireLock LockSource.cron (none : LockState)).1 = true ∧
    (acquireLock LockSource.cron (none : LockState)).2 = some LockSource.cron ∧
    (acquireLock LockSource.manual (some LockSource.cron)).2 = some LockSource.cron :=
  ⟨((C3_acquire_exclusive LockSource.cron LockSource.manual none).1).mpr rfl,
   (C3_acquire_exclusive LockSource.cron LockSource.manual none).2.1 rfl,
   (C3_acquire_exclusive LockSource.manual LockSource.cron
     (some LockSource.cron)).2.2.1 rfl⟩

/-- C9: `getSchedulerStatus` reports `executing = true` exactly when the
lock is held with holder tag `'cron'`; when a manual trigger holds the
lock, `executing` is `false` although a cycle is in flight; `running`
reflects only whether the cron task is installed. -/
theorem C9_status_executing_cron_only (st : SchedulerState) :
    ((getSchedulerStatus st).executing = true ↔ st.lock = some LockSource.cron) ∧
    (st.lock = some LockSource.manual →
      (getLockStatus st.lock).locked = true ∧
      (getSchedulerStatus st).executing = false) ∧
    (getSchedulerStatus st).running = st.scheduledTask := by
  obtain ⟨task, lock⟩ := st
  cases lock with
  | none => simp [getSchedulerStatus, getLockStatus]
  | some s => cases s <;> simp [getSchedulerStatus, getLockStatus]

/-- Witness for C9: with the cron task installed and the lock held by a
manual trigger, the lock is locked yet the status reports not executing. -/
theorem C9_witness :
    (getLockStatus (SchedulerState.mk true (some LockSource.manual)).lock).locked = true ∧
    (getSchedulerStatus (SchedulerState.mk true (some LockSource.manual))).executing = false :=
  (C9_status_executing_cron_only ⟨true, some LockSource.manual⟩).2.1 rfl

/-- C10: `startScheduler` is a no-op when automation is disabled or when a
cron task is already installed (the latter outside cloud-scheduler mode,
in which `startScheduler` never installs a task at all, so no state with a
task installed arises), and `stopScheduler` is a no-op when no task is
installed. -/
theorem C10_start_stop_idempotent (env : SchedulerEnv) (processorThrows : Bool)
    (st : SchedulerState) :
    (env.enableAutomation = false → startScheduler env processorThrows st = st) ∧
    (st.scheduledTask = true → env.isCloudScheduler = false →
      startScheduler env processorThrows st = st) ∧
    (env.isCloudScheduler = true →
      (startScheduler env processorThrows st).scheduledTask = st.scheduledTask) ∧
    (st.scheduledTask = false → stopScheduler st = st) := by
  obtain ⟨en, cl⟩ := env
  obtain ⟨task, lock⟩ := st
  cases en <;> cases cl <;> cases task <;>
    simp [startScheduler, stopScheduler]

/-- Witness for C10: a disabled start, a start with the task already
installed, and a stop with no task installed all leave the state as it
was. -/
theorem C10_witness :
    startScheduler ⟨false, false⟩ false ⟨false, none⟩ = ⟨false, none⟩ ∧
    startScheduler ⟨true, false⟩ false ⟨true, none⟩ = ⟨true, none⟩ ∧
    stopScheduler ⟨false, none⟩ = ⟨false, none⟩ :=
  ⟨(C10_start_stop_idempotent ⟨false, false⟩ false ⟨false, none⟩).1 rfl,
   (C10_start_stop_idempotent ⟨true, false⟩ false ⟨true, none⟩).2.1 rfl rfl,
   (C10_start_stop_idempotent ⟨true, false⟩ false ⟨false, none⟩).2.2.2 rfl⟩

/-- C2: the evaluator returns exactly one of the five decisions, checks in
order with first match winning (weekday exclusion, primary window `T ± W`,
extended window up to `T + H` hours, emergency window for logout only,
else expired), with minute granularity and inclusive boundaries; with
defaults `T = 09:00, W = 6`: `08:55` is primary, `09:07` is extended, and
a logout with `T = 18:00` past `H` hours is expired until `22:00`, where
it becomes the emergency window. -/
theorem C2_evaluator_order_and_examples (cfg : AutomationConfig)
    (action : ActionKind) (weekdays : List Nat) (T wd now : Nat) :
    (weekdays.contains wd = false →
      evaluateTimeWindow cfg action weekdays T wd now = Decision.skipNotDue) ∧
    (weekdays.contains wd = true → inPrimaryWindow cfg T now = true →
      evaluateTimeWindow cfg action weekdays T wd now = Decision.actPrimaryWindow) ∧
    (weekdays.contains wd = true → inPrimaryWindow cfg T now = false →
      inExtendedWindow cfg T now = true →
      evaluateTimeWindow cfg action weekdays T wd now =
        Decision.actExtendedRetryWindow) ∧
    (weekdays.contains wd = true → inPrimaryWindow cfg T now = false →
      inExtendedWindow cfg T now = false → action = ActionKind.logout →
      inEmergencyWindow cfg now = true →
      evaluateTimeWindow cfg action weekdays T wd now =
        Decision.actEmergencyWindow) ∧
    (weekdays.contains wd = true → inPrimaryWindow cfg T now = false →
      inExtendedWindow cfg T now = false →
      (action = ActionKind.login ∨ inEmergencyWindow cfg now = false) →
      evaluateTimeWindow cfg action weekdays T wd now = Decision.skipExpired) ∧
    (evaluateTimeWindow AUTOMATION_CONFIG ActionKind.login [wd] 540 wd 535 =
      Decision.actPrimaryWindow) ∧
    (evaluateTimeWindow AUTOMATION_CONFIG ActionKind.login [wd] 540 wd 547 =
      Decision.actExtendedRetryWindow) ∧
    (∀ m : Nat, 1080 + 120 < m → m < 1320 →
      evaluateTimeWindow AUTOMATION_CONFIG ActionKind.logout [wd] 1080 wd m =
        Decision.skipExpired) ∧
    (∀ m : Nat, 1320 ≤ m → m ≤ 1439 →
      evaluateTimeWindow AUTOMATION_CONFIG ActionKind.logout [wd] 1080 wd m =
        Decision.actEmergencyWindow) := by
  have hes : hhmmToMinutes AUTOMATION_CONFIG.EMERGENCY_LOGOUT_START = 1320 := by
    decide
  have hee : hhmmToMinutes AUTOMATION_CONFIG.EMERGENCY_LOGOUT_END = 1439 := by
    decide
  have hwd : ([wd].contains wd) = true := by simp
  refine ⟨?_, ?_, ?_, ?_, ?_, ?_, ?_, ?_, ?_⟩
  · intro h
    have hn : ¬ wd ∈ weekdays := by simpa using h
    simp [evaluateTimeWindow, hn]
  · intro h hp
    have hm2 : wd ∈ weekdays := by simpa using h
    simp [evaluateTimeWindow, hm2, hp]
  · intro h hp he
    have hm2 : wd ∈ weekdays := by simpa using h
    simp [evaluateTimeWindow, hm2, hp, he]
  · intro h hp he ha hm
    have hm2 : wd ∈ weekdays := by simpa using h
    simp [evaluateTimeWindow, hm2, hp, he, ha, hm]
  · intro h hp he hd
    have hm2 : wd ∈ weekdays := by simpa using h
    rcases hd with ha | hm
    · simp [evaluateTimeWindow, hm2, hp, he, ha]
    · simp [evaluateTimeWindow, hm2, hp, he, hm]
  · have hp : inPrimaryWindow AUTOMATION_CONFIG 540 535 = true := by decide
    simp [evaluateTimeWindow, hwd, hp]
  · have hp : inPrimaryWindow AUTOMATION_CONFIG 540 547 = false := by decide
    have he : inExtendedWindow AUTOMATION_CONFIG 540 547 = true := by decide
    simp [evaluateTimeWindow, hwd, hp, he]
  · intro m h1 h2
    have hp : inPrimaryWindow AUTOMATION_CONFIG 1080 m = false := by
      simp only [inPrimaryWindow, AUTOMATION_CONFIG]
      simp only [Bool.and_eq_false_iff, decide_eq_false_iff_not, not_le]
      omega
    have he : inExtendedWindow AUTOMATION_CONFIG 1080 m = false := by
      simp only [inExtendedWindow, AUTOMATION_CONFIG]
      simp only [Bool.and_eq_false_iff, decide_eq_false_iff_not, not_le, not_lt]
      omega
    have hm : inEmergencyWindow AUTOMATION_CONFIG m = false := by
      simp only [inEmergencyWindow, hes, hee]
      simp only [Bool.and_eq_false_iff, decide_eq_false_iff_not, not_le]
      omega
    simp [evaluateTimeWindow, hwd, hp, he, hm]
  · intro m h1 h2
    have hp : inPrimaryWindow AUTOMATION_CONFIG 1080 m = false := by
      simp only [inPrimaryWindow, AUTOMATION_CONFIG]
      simp only [Bool.and_eq_false_iff, decide_eq_false_iff_not, not_le]
      omega
    have he : inExtendedWindow AUTOMATION_CONFIG 1080 m = false := by
      simp only [inExtendedWindow, AUTOMATION_CONFIG]
      simp only [Bool.and_eq_false_iff, decide_eq_false_iff_not, not_le, not_lt]
      omega
    have hm : inEmergencyWindow AUTOMATION_CONFIG m = true := by
      simp only [inEmergencyWindow, hes, hee]
      simp only [Bool.and_eq_true, decide_eq_true_eq]
      omega
    simp [evaluateTimeWindow, hwd, hp, he, hm]

/-- Witness for C2: concrete checks of every conjunct — weekday exclusion,
each window of the precedence chain, both skip outcomes, and the
documented example times. -/
theorem C2_witness :
    evaluateTimeWindow AUTOMATION_CONFIG ActionKind.login [0] 540 1 540 =
      Decision.skipNotDue ∧
    evaluateTimeWindow AUTOMATION_CONFIG ActionKind.login [1] 540 1 535 =
      Decision.actPrimaryWindow ∧
    evaluateTimeWindow AUTOMATION_CONFIG ActionKind.login [1] 540 1 547 =
      Decision.actExtendedRetryWindow ∧
    evaluateTimeWindow AUTOMATION_CONFIG ActionKind.logout [1] 1080 1 1330 =
      Decision.actEmergencyWindow ∧
    evaluateTimeWindow AUTOMATION_CONFIG ActionKind.login [1] 1080 1 1330 =
      Decision.skipExpired ∧
    evaluateTimeWindow AUTOMATION_CONFIG ActionKind.logout [1] 1080 1 1260 =
      Decision.skipExpired ∧
    evaluateTimeWindow AUTOMATION_CONFIG ActionKind.logout [1] 1080 1 1320 =
      Decision.actEmergencyWindow :=
  ⟨(C2_evaluator_order_and_examples AUTOMATION_CONFIG ActionKind.login [0] 540 1
      540).1 rfl,
   (C2_evaluator_order_and_examples AUTOMATION_CONFIG ActionKind.login [1] 540 1
      535).2.1 rfl rfl,
   (C2_evaluator_order_and_examples AUTOMATION_CONFIG ActionKind.login [1] 540 1
      547).2.2.1 rfl rfl rfl,
   (C2_evaluator_order_and_examples AUTOMATION_CONFIG ActionKind.logout [1] 1080 1
      1330).2.2.2.1 rfl rfl rfl rfl rfl,
   (C2_evaluator_order_and_examples AUTOMATION_CONFIG ActionKind.login [1] 1080 1
      1330).2.2.2.2.1 rfl rfl rfl (Or.inl rfl),
   ((C2_evaluator_order_and_examples AUTOMATION_CONFIG ActionKind.logout [1] 1080 1
      0).2.2.2.2.2.2.2.1) 1260 (by omega) (by omega),
   ((C2_evaluator_order_and_examples AUTOMATION_CONFIG ActionKind.logout [1] 1080 1
      0).2.2.2.2.2.2.2.2) 1320 (by omega) (by omega)⟩

lemma retryTrace_length_le {ε α : Type} (op : Nat → Except ε α) :
    ∀ (n start : Nat), (retryTrace op start n).length ≤ n := by
  intro n
  induction n with
  | zero => intro start; simp [retryTrace]
  | succ n ih =>
    intro start
    simp only [retryTrace]
    cases op start with
    | ok a => simp
    | error e =>
      simp only [List.length_cons]
      exact Nat.succ_le_succ (ih (start + 1))

lemma retryTrace_first_success {ε α : Type} (op : Nat → Except ε α) :
    ∀ (k n start : Nat) (a : α), k < n →
      (∀ i, i < k → ∃ e, op (start + i) = Except.error e) →
      op (start + k) = Except.ok a →
      (retryTrace op start n).getLast? = some (Except.ok a) ∧
        (retryTrace op start n).length = k + 1 := by
  intro k
  induction k with
  | zero =>
    intro n start a hn hf hok
    rw [Nat.add_zero] at hok
    cases n with
    | zero => omega
    | succ n => simp [retryTrace, hok]
  | succ k ih =>
    intro n start a hn hf hok
    cases n with
    | zero => omega
    | succ n =>
      obtain ⟨e, he⟩ := hf 0 (Nat.succ_pos k)
      rw [Nat.add_zero] at he
      have hf2 : ∀ i, i < k → ∃ e2, op (start + 1 + i) = Except.error e2 := by
        intro i hi
        obtain ⟨e2, he2⟩ := hf (i + 1) (by omega)
        exact ⟨e2, by rw [show start + 1 + i = start + (i + 1) by omega]; exact he2⟩
      have hok2 : op (start + 1 + k) = Except.ok a := by
        rw [show start + 1 + k = start + (k + 1) by omega]; exact hok
      obtain ⟨hlast, hlen⟩ := ih n (start + 1) a (by omega) hf2 hok2
      simp only [retryTrace, he]
      constructor
      · cases ht : retryTrace op (start + 1) n with
        | nil => rw [ht] at hlen; simp at hlen
        | cons b l =>
          rw [List.getLast?_cons_cons, ← ht]
          exact hlast
      · simp [hlen]

lemma retryTrace_all_fail {ε α : Type} (op : Nat → Except ε α) (e : Nat → ε) :
    ∀ (n start : Nat), 0 < n →
      (∀ i, i < n → op (start + i) = Except.error (e (start + i))) →
      (retryTrace op start n).getLast? =
        some (Except.error (e (start + n - 1))) := by
  intro n
  induction n with
  | zero => intro start h; omega
  | succ n ih =>
    intro start _ hf
    have he0 : op start = Except.error (e start) := by
      have := hf 0 (Nat.succ_pos n); rwa [Nat.add_zero] at this
    simp only [retryTrace, he0]
    cases n with
    | zero => simp [retryTrace]
    | succ m =>
      have hf2 : ∀ i, i < m + 1 →
          op (start + 1 + i) = Except.error (e (start + 1 + i)) := by
        intro i hi
        have := hf (i + 1) (by omega)
        rwa [show start + (i + 1) = start + 1 + i by omega] at this
      have hrec := ih (start + 1) (Nat.succ_pos m) hf2
      cases ht : retryTrace op (start + 1) (m + 1) with
      | nil =>
        rw [ht] at hrec; simp at hrec
      | cons b l =>
        rw [List.getLast?_cons_cons, ← ht, hrec]
        have harith : start + 1 + (m + 1) - 1 = start + (m + 1 + 1) - 1 := by omega
        rw [harith]

lemma verifyLoop_count_le (ct : ActionKind) (att : Nat → VerifyAttempt) :
    ∀ (n i : Nat), (verifyLoop ct att i n).2 ≤ n := by
  intro n
  induction n with
  | zero => intro i; simp [verifyLoop]
  | succ n ih =>
    intro i
    cases hf : (att i).elementFound with
    | false =>
      simp [verifyLoop, hf]
      have := ih (i + 1)
      omega
    | true =>
      cases hp : (att i).parseThrows with
      | some e => simp [verifyLoop, hf, hp]
      | none =>
        cases hv : attemptVerified ct (att i) with
        | true => simp [verifyLoop, hf, hp, hv]
        | false =>
          simp [verifyLoop, hf, hp, hv]
          have := ih (i + 1)
          omega

lemma verifyLoop_first_clean_verify (ct : ActionKind) (att : Nat → VerifyAttempt) :
    ∀ (k n i : Nat), k < n →
      (∀ j, j < k → (att (i + j)).elementFound = false) →
      (att (i + k)).elementFound = true →
      (att (i + k)).parseThrows = none →
      attemptVerified ct (att (i + k)) = true →
      verifyLoop ct att i n = (Except.ok true, k + 1) := by
  intro k
  induction k with
  | zero =>
    intro n i hn hnf hf hp hv
    rw [Nat.add_zero] at hf hp hv
    cases n with
    | zero => omega
    | succ n => simp [verifyLoop, hf, hp, hv]
  | succ k ih =>
    intro n i hn hnf hf hp hv
    cases n with
    | zero => omega
    | succ n =>
      have h0 : (att i).elementFound = false := by
        have := hnf 0 (Nat.succ_pos k); rwa [Nat.add_zero] at this
      have hnf2 : ∀ j, j < k → (att (i + 1 + j)).elementFound = false := by
        intro j hj
        have := hnf (j + 1) (by omega)
        rwa [show i + (j + 1) = i + 1 + j by omega] at this
      have hrec := ih n (i + 1) (by omega) hnf2
        (by rwa [show i + 1 + k = i + (k + 1) by omega])
        (by rwa [show i + 1 + k = i + (k + 1) by omega])
        (by rwa [show i + 1 + k = i + (k + 1) by omega])
      simp [verifyLoop, h0, hrec]

lemma verifyLoop_all_unverified (ct : ActionKind) (att : Nat → VerifyAttempt) :
    ∀ (n i : Nat),
      (∀ j, j < n → (att (i + j)).elementFound = true ∧
        (att (i + j)).parseThrows = none ∧
        attemptVerified ct (att (i + j)) = false) →
      verifyLoop ct att i n = (Except.ok false, n) := by
  intro n
  induction n with
  | zero => intro i h; simp [verifyLoop]
  | succ n ih =>
    intro i h
    obtain ⟨hf, hp, hv⟩ := h 0 (Nat.succ_pos n)
    rw [Nat.add_zero] at hf hp hv
    have h2 : ∀ j, j < n → (att (i + 1 + j)).elementFound = true ∧
        (att (i + 1 + j)).parseThrows = none ∧
        attemptVerified ct (att (i + 1 + j)) = false := by
      intro j hj
      have := h (j + 1) (by omega)
      rwa [show i + (j + 1) = i + 1 + j by omega] at this
    have hrec := ih (i + 1) h2
    simp [verifyLoop, hf, hp, hv, hrec]

/-- C4: `RetryPolicy.run` invokes the operation at most `N` times, stops
on the first success returning that success, and returns the last failure
when all `N` attempts fail; with `N = 3` an operation failing twice then
succeeding yields the success after exactly 3 invocations; and the
provider's verification polling (`verifyPunchSuccess`) obeys the same
bounded-retry contract with its own parameter `maxRetries = 6`: at most 6
iterations, early stop on the first verified attempt, `false` after
exhausting all attempts unverified. -/
theorem C4_retry_policy_bounded :
    (∀ (op : Nat → Except String Nat) (n : Nat),
      (retryTrace op 0 n).length ≤ n) ∧
    (∀ (op : Nat → Except String Nat) (n k : Nat) (a : Nat), k < n →
      (∀ i, i < k → ∃ e, op i = Except.error e) → op k = Except.ok a →
      retryRun op n = some (Except.ok a) ∧
        (retryTrace op 0 n).length = k + 1) ∧
    (∀ (op : Nat → Except String Nat) (n : Nat) (e : Nat → String), 0 < n →
      (∀ i, i < n → op i = Except.error (e i)) →
      retryRun op n = some (Except.error (e (n - 1)))) ∧
    (retryRun failsTwiceThenSucceeds 3 = some (Except.ok 42) ∧
      (retryTrace failsTwiceThenSucceeds 0 3).length = 3) ∧
    (∀ (ct : ActionKind) (att : Nat → VerifyAttempt),
      (verifyPunchSuccess ct att).2 ≤ maxRetries) ∧
    (∀ (ct : ActionKind) (att : Nat → VerifyAttempt) (k : Nat),
      k < maxRetries →
      (∀ j, j < k → (att (1 + j)).elementFound = false) →
      (att (1 + k)).elementFound = true →
      (att (1 + k)).parseThrows = none →
      attemptVerified ct (att (1 + k)) = true →
      verifyPunchSuccess ct att = (Except.ok true, k + 1)) ∧
    (∀ (ct : ActionKind) (att : Nat → VerifyAttempt),
      (∀ j, j < maxRetries → (att (1 + j)).elementFound = true ∧
        (att (1 + j)).parseThrows = none ∧
        attemptVerified ct (att (1 + j)) = false) →
      verifyPunchSuccess ct att = (Except.ok false, maxRetries)) := by
  refine ⟨?_, ?_, ?_, ?_, ?_, ?_, ?_⟩
  · intro op n
    exact retryTrace_length_le op n 0
  · intro op n k a hk hfail hok
    have hfail0 : ∀ i, i < k → ∃ e, op (0 + i) = Except.error e := by
      intro i hi; simpa using hfail i hi
    have hok0 : op (0 + k) = Except.ok a := by simpa using hok
    exact retryTrace_first_success op k n 0 a hk hfail0 hok0
  · intro op n e hn hfail
    have hfail0 : ∀ i, i < n → op (0 + i) = Except.error (e (0 + i)) := by
      intro i hi; simpa using hfail i hi
    have := retryTrace_all_fail op e n 0 hn hfail0
    simpa [retryRun] using this
  · exact ⟨rfl, rfl⟩
  · intro ct att
    exact verifyLoop_count_le ct att maxRetries 1
  · intro ct att k hk hnf hf hp hv
    exact verifyLoop_first_clean_verify ct att k maxRetries 1 hk hnf hf hp hv
  · intro ct att h
    exact verifyLoop_all_unverified ct att maxRetries 1 h

/-- Witness for C4: the fails-twice-then-succeeds operation under `N = 3`
returns the success after exactly 3 invocations, and a verification whose
first attempt observes the punch recorded stops after 1 of the 6
iterations. -/
theorem C4_witness :
    retryRun failsTwiceThenSucceeds 3 = some (Except.ok 42) ∧
    (retryTrace failsTwiceThenSucceeds 0 3).length = 3 ∧
    verifyPunchSuccess ActionKind.login
      (fun _ => ⟨true, none, ⟨"09:02 AM", "—"⟩⟩) = (Except.ok true, 1) := by
  have hfail : ∀ i, i < 2 → ∃ e, failsTwiceThenSucceeds i = Except.error e := by
    intro i hi
    exact ⟨"transient failure", by interval_cases i <;> rfl⟩
  obtain ⟨h1, h2⟩ := C4_retry_policy_bounded.2.1 failsTwiceThenSucceeds 3 2 42
    (by omega) hfail rfl
  refine ⟨h1, h2, ?_⟩
  exact C4_retry_policy_bounded.2.2.2.2.2.1 ActionKind.login
    (fun _ => ⟨true, none, ⟨"09:02 AM", "—"⟩⟩) 0 (by decide)
    (by intro j hj; omega) rfl rfl (by decide)

/-- C5: for both provider actions, finding the user already in the target
state and freshly performing the action (with verification succeeding)
both produce `success = true` — never a skip or failure — and the two
cases carry distinct messages (`Already logged in/out today at ...` versus
`... successful - attendance marked`). -/
theorem C5_success_modes_distinct_messages (env : ProviderEnv) :
    (env.authThrows = none → env.parseThrows = none →
      isPunchedIn env.punchData.inTime = true →
      AkriviaProvider.login env =
        { success := true
          message := "Already logged in today at " ++ env.punchData.inTime
          actualInTime := some env.punchData.inTime }) ∧
    (env.authThrows = none → env.parseThrows = none →
      isPunchedIn env.punchData.inTime = false → env.actionThrows = none →
      (verifyPunchSuccess ActionKind.login env.verifyAttempts).1 = Except.ok true →
      env.reparseThrows = none →
      AkriviaProvider.login env =
        { success := true
          message := "Login successful - attendance marked"
          actualInTime := some env.reparseData.inTime }) ∧
    (∀ t : String,
      "Already logged in today at " ++ t ≠ "Login successful - attendance marked") ∧
    (env.authThrows = none → env.parseThrows = none →
      isPunchedOut env.punchData.outTime = true →
      AkriviaProvider.logout env =
        { success := true
          message := "Already logged out today at " ++ env.punchData.outTime
          actualOutTime := some env.punchData.outTime }) ∧
    (env.authThrows = none → env.parseThrows = none →
      isPunchedOut env.punchData.outTime = false → env.actionThrows = none →
      (verifyPunchSuccess ActionKind.logout env.verifyAttempts).1 = Except.ok true →
      env.reparseThrows = none →
      AkriviaProvider.logout env =
        { success := true
          message := "Logout successful - attendance marked"
          actualOutTime := some env.reparseData.outTime }) ∧
    (∀ t : String,
      "Already logged out today at " ++ t ≠ "Logout successful - attendance marked") := by
  refine ⟨?_, ?_, ?_, ?_, ?_, ?_⟩
  · intro h1 h2 h3
    simp [AkriviaProvider.login, h1, h2, h3]
  · intro h1 h2 h3 h4 hv h6
    rcases hq : verifyPunchSuccess ActionKind.login env.verifyAttempts with ⟨r, c⟩
    rw [hq] at hv
    simp only at hv
    subst hv
    simp [AkriviaProvider.login, h1, h2, h3, h4, hq, h6]
  · intro t h
    have h2 : ("Already logged in today at ").data ++ t.data =
        ("Login successful - attendance marked").data := by
      rw [← String.data_append, h]
    have hA : ("Already logged in today at ").data =
        'A' :: ("lready logged in today at ").data := by decide
    have hL : ("Login successful - attendance marked").data =
        'L' :: ("ogin successful - attendance marked").data := by decide
    rw [hA, hL, List.cons_append] at h2
    injection h2 with hc _
    exact absurd hc (by decide)
  · intro h1 h2 h3
    simp [AkriviaProvider.logout, h1, h2, h3]
  · intro h1 h2 h3 h4 hv h6
    rcases hq : verifyPunchSuccess ActionKind.logout env.verifyAttempts with ⟨r, c⟩
    rw [hq] at hv
    simp only at hv
    subst hv
    simp [AkriviaProvider.logout, h1, h2, h3, h4, hq, h6]
  · intro t h
    have h2 : ("Already logged out today at ").data ++ t.data =
        ("Logout successful - attendance marked").data := by
      rw [← String.data_append, h]
    have hA : ("Already logged out today at ").data =
        'A' :: ("lready logged out today at ").data := by decide
    have hL : ("Logout successful - attendance marked").data =
        'L' :: ("ogout successful - attendance marked").data := by decide
    rw [hA, hL, List.cons_append] at h2
    injection h2 with hc _
    exact absurd hc (by decide)

/-- Witness for C5: a login that finds the user already punched in and a
login that freshly punches in (first verification attempt confirms) both
return `success = true` with the two distinct messages. -/
theorem C5_witness :
    AkriviaProvider.login
      { authThrows := none, parseThrows := none
        punchData := { inTime := "09:02 AM", outTime := "—" }
        actionThrows := none
        verifyAttempts := fun _ => ⟨true, none, ⟨"09:02 AM", "—"⟩⟩
        reparseThrows := none
        reparseData := { inTime := "09:02 AM", outTime := "—" } } =
      { success := true
        message := "Already logged in today at " ++ "09:02 AM"
        actualInTime := some "09:02 AM" } ∧
    AkriviaProvider.login
      { authThrows := none, parseThrows := none
        punchData := { inTime := "—", outTime := "—" }
        actionThrows := none
        verifyAttempts := fun _ => ⟨true, none, ⟨"09:05 AM", "—"⟩⟩
        reparseThrows := none
        reparseData := { inTime := "09:05 AM", outTime := "—" } } =
      { success := true
        message := "Login successful - attendance marked"
        actualInTime := some "09:05 AM" } := by
  constructor
  · exact (C5_success_modes_distinct_messages _).1 rfl rfl (by decide)
  · exact (C5_success_modes_distinct_messages _).2.1 rfl rfl (by decide) rfl
      rfl rfl

/-- C6: within one cycle, a provider failure or thrown error for one user
is caught at that user's boundary, recorded as a failure log entry
carrying the error's message, and never prevents the remaining users from
being processed: in a two-user queue whose first provider call throws, the
second user is still processed. -/
theorem C6_per_user_failure_isolation (u1 u2 : CycleUser) (m : String)
    (action : ActionKind) (rest : List CycleUser) :
    (processAttendanceQueue action (u1 :: rest) =
      processUser action u1 ++ processAttendanceQueue action rest) ∧
    (u1.decision.isAct = true → u1.call = CallOutcome.threw m →
      processUser action u1 =
        [{ userId := u1.id, action := action, success := false, message := m }]) ∧
    (u1.decision.isAct = true → u1.call = CallOutcome.threw m →
      u2.decision.isAct = true →
      processAttendanceQueue action [u1, u2] =
        { userId := u1.id, action := action, success := false, message := m } ::
          processUser action u2 ∧
      (processUser action u2).length = 1 ∧
      ∃ e ∈ processAttendanceQueue action [u1, u2], e.userId = u2.id) := by
  refine ⟨rfl, ?_, ?_⟩
  · intro h1 h2
    simp [processUser, h1, h2]
  · intro h1 h2 h3
    have hu1 : processUser action u1 =
        [{ userId := u1.id, action := action, success := false, message := m }] := by
      simp [processUser, h1, h2]
    have hlen : (processUser action u2).length = 1 := by
      cases hc : u2.call <;> simp [processUser, h3, hc]
    refine ⟨by simp [processAttendanceQueue, hu1], hlen, ?_⟩
    cases hc : u2.call with
    | threw m2 =>
      exact ⟨{ userId := u2.id, action := action, success := false, message := m2 },
        by simp [processAttendanceQueue, processUser, h1, h2, h3, hc], rfl⟩
    | returned s msg =>
      exact ⟨{ userId := u2.id, action := action, success := s, message := msg },
        by simp [processAttendanceQueue, processUser, h1, h2, h3, hc], rfl⟩

/-- Witness for C6: a two-user queue in which the first user's provider
call throws still produces the second user's log entry after the first
user's failure entry. -/
theorem C6_witness :
    processAttendanceQueue ActionKind.login
      [⟨"alice", Decision.actPrimaryWindow, CallOutcome.threw "Navigation timeout"⟩,
       ⟨"bob", Decision.actPrimaryWindow,
         CallOutcome.returned true "Login successful - attendance marked"⟩] =
      [{ userId := "alice", action := ActionKind.login, success := false
         message := "Navigation timeout" },
       { userId := "bob", action := ActionKind.login, success := true
         message := "Login successful - attendance marked" }] := by
  obtain ⟨he, -, -⟩ :=
    (C6_per_user_failure_isolation
      ⟨"alice", Decision.actPrimaryWindow, CallOutcome.threw "Navigation timeout"⟩
      ⟨"bob", Decision.actPrimaryWindow,
        CallOutcome.returned true "Login successful - attendance marked"⟩
      "Navigation timeout" ActionKind.login []).2.2 rfl rfl rfl
  rw [he]
  rfl

/-- C7 counterexample: for the user store, a failing rename leaves the
temporary file behind — `writeUsersToFile` throws but has no cleanup step,
so the claim that "the temporary file is cleaned up" on failure does not
hold for the user store (the destination is still left unchanged). -/
theorem C7_counterexample :
    (writeUsersToFile [{ id := "u1" }] ⟨false, false, true⟩
      (⟨[], none⟩ : FsFile (List User))).2.isSome = true ∧
    (writeUsersToFile [{ id := "u1" }] ⟨false, false, true⟩
      (⟨[], none⟩ : FsFile (List User))).1.temp ≠ none ∧
    (writeUsersToFile [{ id := "u1" }] ⟨false, false, true⟩
      (⟨[], none⟩ : FsFile (List User))).1.dest = [] := by
  refine ⟨rfl, ?_, rfl⟩
  intro h
  simp [writeUsersToFile] at h

/-- C7 (amended): both stores write the full payload to a temporary file
and rename it over the destination; every failure raises an error and
leaves the destination holding its previous content; the attendance-log
store additionally removes the temporary file on failure, while the user
store performs no cleanup. -/
theorem C7_atomic_write_temp_then_replace (logs : List AttendanceLog)
    (users : List User) (f : WriteFailures) (stL : FsFile (List AttendanceLog))
    (stU : FsFile (List User)) :
    ((writeLogsToFile logs f stL).2 = none →
      (writeLogsToFile logs f stL).1 = { dest := logs, temp := none }) ∧
    ((writeLogsToFile logs f stL).2.isSome = true →
      (writeLogsToFile logs f stL).1.dest = stL.dest ∧
      (writeLogsToFile logs f stL).1.temp = none) ∧
    ((writeUsersToFile users f stU).2 = none →
      (writeUsersToFile users f stU).1 = { dest := users, temp := none }) ∧
    ((writeUsersToFile users f stU).2.isSome = true →
      (writeUsersToFile users f stU).1.dest = stU.dest) ∧
    ((f.mkdirFails = false ∧ f.writeFileFails = false ∧ f.renameFails = false) ↔
      (writeLogsToFile logs f stL).2 = none) := by
  obtain ⟨fm, fw, fr⟩ := f
  cases fm <;> cases fw <;> cases fr <;>
    simp [writeLogsToFile, writeUsersToFile]

/-- Witness for C7 (amended): with only the rename failing, the log store
reports the error with its temp file removed and destination untouched,
the user store reports the error with its destination untouched, and a
fully successful write installs the new content. -/
theorem C7_witness :
    ((writeLogsToFile [] ⟨false, false, true⟩
        (⟨[], none⟩ : FsFile (List AttendanceLog))).1.dest = [] ∧
      (writeLogsToFile [] ⟨false, false, true⟩
        (⟨[], none⟩ : FsFile (List AttendanceLog))).1.temp = none) ∧
    (writeUsersToFile [] ⟨false, false, true⟩
      (⟨[{ id := "old" }], none⟩ : FsFile (List User))).1.dest = [{ id := "old" }] ∧
    (writeLogsToFile [] ⟨false, false, false⟩
      (⟨[], none⟩ : FsFile (List AttendanceLog))).1 = ⟨[], none⟩ :=
  ⟨(C7_atomic_write_temp_then_replace [] [] ⟨false, false, true⟩ ⟨[], none⟩
      ⟨[], none⟩).2.1 rfl,
   (C7_atomic_write_temp_then_replace [] [] ⟨false, false, true⟩ ⟨[], none⟩
      ⟨[{ id := "old" }], none⟩).2.2.2.1 rfl,
   (C7_atomic_write_temp_then_replace [] [] ⟨false, false, false⟩ ⟨[], none⟩
      ⟨[], none⟩).1 rfl⟩

/-- C8: after every successful `appendLog`, the stored array holds at most
`MAX_LOGS = 1000` entries, the newly appended entry is the last element,
and exactly the oldest excess entries were removed (the result is the
suffix of `old ++ [log]` obtained by dropping the first
`length - MAX_LOGS` entries). -/
theorem C8_append_log_bounded_ring (log : AttendanceLog)
    (st : FsFile (List AttendanceLog)) :
    (appendLog log ⟨false, false, false⟩ st).2 = none ∧
    (appendLog log ⟨false, false, false⟩ st).1.dest.length ≤ MAX_LOGS ∧
    (appendLog log ⟨false, false, false⟩ st).1.dest.getLast? = some log ∧
    (appendLog log ⟨false, false, false⟩ st).1.dest =
      (st.dest ++ [log]).drop (st.dest.length + 1 - MAX_LOGS) ∧
    (st.dest ++ [log]).take (st.dest.length + 1 - MAX_LOGS) ++
      (appendLog log ⟨false, false, false⟩ st).1.dest = st.dest ++ [log] := by
  have hwrite : appendLog log ⟨false, false, false⟩ st =
      ({ dest :=
          if (st.dest ++ [log]).length > MAX_LOGS then
            (st.dest ++ [log]).drop ((st.dest ++ [log]).length - MAX_LOGS)
          else st.dest ++ [log]
         temp := none }, none) := by
    simp [appendLog, writeLogsToFile]
  rw [hwrite]
  have hlen1 : (st.dest ++ [log]).length = st.dest.length + 1 := by simp
  by_cases h : (st.dest ++ [log]).length > MAX_LOGS
  · rw [if_pos h]
    have hM : MAX_LOGS = 1000 := rfl
    have hk : (st.dest ++ [log]).length - MAX_LOGS ≤ st.dest.length := by omega
    have hk2 : (st.dest ++ [log]).length - MAX_LOGS =
        st.dest.length + 1 - MAX_LOGS := by omega
    refine ⟨rfl, ?_, ?_, ?_, ?_⟩
    · simp only [List.length_drop]
      omega
    · rw [List.drop_append_of_le_length hk, List.getLast?_concat]
    · rw [hk2]
    · rw [hk2, List.take_append_drop]
  · rw [if_neg h]
    have hM : MAX_LOGS = 1000 := rfl
    have hz : st.dest.length + 1 - MAX_LOGS = 0 := by omega
    refine ⟨rfl, by show (st.dest ++ [log]).length ≤ MAX_LOGS; omega,
      List.getLast?_concat _, ?_, ?_⟩
    · rw [hz, List.drop_zero]
    · rw [hz, List.take_zero, List.nil_append]
